import Mathlib

/-!
Verification of the FlightTracker repository's core: geodesy library
(src/lib/geoUtils.ts), position estimator, flight-status classifier
(src/types/flight.ts), configuration filter (src/config/flights.ts),
tracking reconciler (src/services/flightTracker.ts) and telemetry adapter
(src/services/openSkyApi.ts).

Modelling conventions:
- JavaScript `number` arithmetic is embedded as exact real arithmetic (`ℝ`)
  for the trigonometric geodesy code, and as exact rational arithmetic (`ℚ`)
  for time/millisecond arithmetic and the adapter's numeric fields.
- `Date` values are their millisecond timestamps (`ℚ`); comparing `Date`s in
  JS compares these timestamps.
- `Math.atan2 y x` is embedded as the argument of the complex number x + y·i
  (`Complex.arg`), which has the same value and the same range (-π, π] on
  every input with (x, y) ≠ (0, 0), and value 0 at (0, 0) like `Math.atan2`
  on positive zeros.
- Division is Lean's total real/rational division; every theorem below that
  depends on a denominator being nonzero carries that as a hypothesis, and
  the one place the source actually divides by zero (identical interpolation
  endpoints) is settled as a defect, not proved around.
-/

noncomputable section

open Real

/-- Math.atan2, embedded as the complex argument of x + y·i. Argument order
follows JavaScript: y first. -/
def atan2 (y x : ℝ) : ℝ := Complex.arg ⟨x, y⟩

/-- Coordinates from src/lib/geoUtils.ts (latitude/longitude in degrees). -/
structure Coordinates where
  latitude : ℝ
  longitude : ℝ

/-- EARTH_RADIUS_KM constant from src/lib/geoUtils.ts. -/
def EARTH_RADIUS_KM : ℝ := 6371

/-- toRadians from src/lib/geoUtils.ts. -/
def toRadians (degrees : ℝ) : ℝ := degrees * (Real.pi / 180)

/-- toDegrees from src/lib/geoUtils.ts. -/
def toDegrees (radians : ℝ) : ℝ := radians * (180 / Real.pi)

/-- calculateDistance from src/lib/geoUtils.ts: haversine great-circle
distance in kilometres. -/
def calculateDistance (point1 point2 : Coordinates) : ℝ :=
  let lat1Rad := toRadians point1.latitude
  let lat2Rad := toRadians point2.latitude
  let deltaLatRad := toRadians (point2.latitude - point1.latitude)
  let deltaLonRad := toRadians (point2.longitude - point1.longitude)
  let a := Real.sin (deltaLatRad / 2) * Real.sin (deltaLatRad / 2) +
    Real.cos lat1Rad * Real.cos lat2Rad *
    Real.sin (deltaLonRad / 2) * Real.sin (deltaLonRad / 2)
  let c := 2 * atan2 (Real.sqrt a) (Real.sqrt (1 - a))
  EARTH_RADIUS_KM * c

/-- calculateIntermediatePoint from src/lib/geoUtils.ts: spherical
interpolation a fraction of the way from `start` to `endP`. Note the source
has no special case for zero angular distance: the coefficients divide by
sin of the angular distance unconditionally. -/
def calculateIntermediatePoint (start endP : Coordinates) (fraction : ℝ) :
    Coordinates :=
  let lat1Rad := toRadians start.latitude
  let lon1Rad := toRadians start.longitude
  let lat2Rad := toRadians endP.latitude
  let lon2Rad := toRadians endP.longitude
  let distance := calculateDistance start endP / EARTH_RADIUS_KM
  let a := Real.sin ((1 - fraction) * distance) / Real.sin distance
  let b := Real.sin (fraction * distance) / Real.sin distance
  let x := a * Real.cos lat1Rad * Real.cos lon1Rad +
    b * Real.cos lat2Rad * Real.cos lon2Rad
  let y := a * Real.cos lat1Rad * Real.sin lon1Rad +
    b * Real.cos lat2Rad * Real.sin lon2Rad
  let z := a * Real.sin lat1Rad + b * Real.sin lat2Rad
  let latRad := atan2 z (Real.sqrt (x * x + y * y))
  let lonRad := atan2 y x
  { latitude := toDegrees latRad, longitude := toDegrees lonRad }

/-- Return type of calculateEstimatedPosition from src/lib/geoUtils.ts.
Times are rational (milliseconds); the position is a real coordinate. -/
structure EstimatedPosition where
  position : Coordinates
  progress : ℚ
  elapsed : ℚ
  remaining : ℚ
  totalFlightTime : ℚ

/-- calculateEstimatedPosition from src/lib/geoUtils.ts. The source assigns
`progress` three times in sequence (clamp, then the `currentTime <
departureTime` override, then the `currentTime > arrivalTime` override);
the nesting below keeps the same last-assignment-wins semantics. -/
def calculateEstimatedPosition (departure arrival : Coordinates)
    (departureTime arrivalTime currentTime : ℚ) : EstimatedPosition :=
  let totalFlightTimeMs := arrivalTime - departureTime
  let elapsedTimeMs := currentTime - departureTime
  let clamped : ℚ := max 0 (min 1 (elapsedTimeMs / totalFlightTimeMs))
  let beforeStart : ℚ := if currentTime < departureTime then 0 else clamped
  let progress : ℚ := if arrivalTime < currentTime then 1 else beforeStart
  let position := calculateIntermediatePoint departure arrival (progress : ℝ)
  { position := position
    progress := progress * 100
    elapsed := max 0 (elapsedTimeMs / (1000 * 60))
    remaining := max 0 ((totalFlightTimeMs - elapsedTimeMs) / (1000 * 60))
    totalFlightTime := totalFlightTimeMs / (1000 * 60) }

/-- Lifecycle status union type from src/types/flight.ts
('completed' | 'current' | 'upcoming'). -/
inductive LifecycleStatus where
  | completed
  | current
  | upcoming
deriving DecidableEq, Repr

/-- calculateFlightStatus from src/types/flight.ts, over the flight's
scheduled departure/arrival timestamps and the current time. -/
def calculateFlightStatus (departure arrival currentTime : ℚ) :
    LifecycleStatus :=
  if currentTime < departure then .upcoming
  else if arrival < currentTime then .completed
  else .current

/-- FlightConfig from src/config/flights.ts, restricted to the fields the
load-time/active-set logic reads (identifier, enabled flag, schedule). -/
structure FlightConfig where
  id : String
  trackingEnabled : Bool
  departure : ℚ
  arrival : ℚ
deriving DecidableEq, Repr

/-- getActiveFlights from src/config/flights.ts, parameterised by the
configuration list (the source reads the global FLIGHT_CONFIG): it filters
on trackingEnabled only, with no schedule validation. -/
def getActiveFlights (cfgs : List FlightConfig) : List FlightConfig :=
  cfgs.filter (·.trackingEnabled)

/-- The set of flight ids startTracking (src/services/flightTracker.ts)
puts into the tracking map: it iterates getActiveFlights and each
iteration stores the flight unconditionally (the try/catch around the
per-flight body only fires on a thrown exception, and none of the called
functions throws on an invalid schedule). -/
def startTracking (cfgs : List FlightConfig) : List String :=
  (getActiveFlights cfgs).map (·.id)

/-- FlightTrackingError union type from src/types/flight.ts. -/
inductive FlightTrackingError where
  | FLIGHT_NOT_FOUND
  | API_RATE_LIMIT
  | API_ERROR
  | NETWORK_ERROR
  | INVALID_FLIGHT_DATA
  | CONFIGURATION_ERROR
deriving DecidableEq, Repr

/-- FlightError from src/types/flight.ts. -/
structure FlightError where
  type : FlightTrackingError
  message : String
  flightId : Option String
  timestamp : ℚ
deriving DecidableEq, Repr

/-- logError from src/services/flightTracker.ts, as a function from the
current error log and the new entry to the next log: push, then if the
length exceeds 100 keep the last 100 entries (`slice(-100)`). -/
def logError (log : List FlightError) (e : FlightError) : List FlightError :=
  let pushed := log ++ [e]
  if 100 < pushed.length then pushed.drop (pushed.length - 100) else pushed

/-- ProcessedFlightData from src/services/openSkyApi.ts (numeric fields as
exact rationals). -/
structure ProcessedFlightData where
  icao24 : String
  callsign : String
  latitude : ℚ
  longitude : ℚ
  altitude : ℚ
  velocity : ℚ
  heading : ℚ
  onGround : Bool
  lastUpdate : ℚ
  country : String
deriving DecidableEq, Repr

/-- OpenSkyFlightState from src/services/openSkyApi.ts, restricted to the
fields the validity filter and normalizer read (sensors, squawk, spi and
position_source are never inspected by them). -/
structure OpenSkyFlightState where
  icao24 : String
  callsign : Option String
  origin_country : String
  time_position : Option ℚ
  last_contact : ℚ
  longitude : Option ℚ
  latitude : Option ℚ
  baro_altitude : Option ℚ
  on_ground : Bool
  velocity : Option ℚ
  true_track : Option ℚ
  vertical_rate : Option ℚ
  geo_altitude : Option ℚ
deriving DecidableEq, Repr

/-- JavaScript `x || d` for `x : number | null`: null and 0 are falsy, any
other number is truthy. (NaN, the remaining falsy number, has no rational
embedding and cannot reach these call sites.) -/
def jsOrNum (x : Option ℚ) (d : ℚ) : ℚ :=
  match x with
  | none => d
  | some v => if v = 0 then d else v

/-- JavaScript `s || d` for `s : string | null`: null and the empty string
are falsy. -/
def jsOrStr (x : Option String) (d : String) : String :=
  match x with
  | none => d
  | some s => if s = "" then d else s

/-- JavaScript `String.prototype.trim`: drop whitespace from both ends.
Modelled structurally over the character list (Lean's built-in
`String.trim` is defined by well-founded recursion on byte positions and
does not evaluate inside the kernel). -/
def jsTrim (s : String) : String :=
  ⟨((s.data.dropWhile Char.isWhitespace).reverse.dropWhile
      Char.isWhitespace).reverse⟩

/-- isValidFlightState from src/services/openSkyApi.ts: latitude, longitude
and callsign present, callsign non-blank after trimming, not on ground. -/
def isValidFlightState (state : OpenSkyFlightState) : Bool :=
  state.latitude.isSome && state.longitude.isSome &&
  state.callsign.isSome && (jsTrim (state.callsign.getD "") != "") &&
  !state.on_ground

/-- processFlightState from src/services/openSkyApi.ts: normalizes a raw
state vector. `state.latitude!` / `state.longitude!` are TypeScript
non-null assertions (the validity filter runs first); they are embedded as
`getD 0`, reached only under that filter in every theorem below. -/
def processFlightState (state : OpenSkyFlightState) : ProcessedFlightData :=
  { icao24 := state.icao24
    callsign := jsTrim (jsOrStr state.callsign "")
    latitude := state.latitude.getD 0
    longitude := state.longitude.getD 0
    altitude := jsOrNum state.baro_altitude (jsOrNum state.geo_altitude 0)
    velocity := jsOrNum state.velocity 0
    heading := jsOrNum state.true_track 0
    onGround := state.on_ground
    lastUpdate := state.last_contact * 1000
    country := state.origin_country }

/-- Per-flight mutable state of the tracking service
(src/services/flightTracker.ts): the FlightTrackingData record, the mutable
fields of its embedded Flight, and the service's error log. `pathDistance`
is `path.distance`, set at initialization to the route's great-circle
distance. Numeric telemetry stays rational; coordinates are real so the
geodesy functions apply to them. -/
structure TrackingState where
  fromCoord : Coordinates
  toCoord : Coordinates
  departure : ℚ
  arrival : ℚ
  pathDistance : ℝ
  liveTelemetry : Option ProcessedFlightData
  currentPosition : Coordinates
  progress : ℝ
  estimatedTimeRemaining : ℚ
  isLive : Bool
  lastUpdated : ℚ
  errorLog : List FlightError

/-- updateEstimatedPosition from src/services/flightTracker.ts: delegate to
the estimator at the current time and adopt its output. It does not touch
liveTelemetry and does not log anything. -/
def updateEstimatedPosition (now : ℚ) (st : TrackingState) : TrackingState :=
  let estimated := calculateEstimatedPosition st.fromCoord st.toCoord
    st.departure st.arrival now
  { st with
    currentPosition := estimated.position
    progress := (estimated.progress : ℝ)
    estimatedTimeRemaining := estimated.remaining
    isLive := false
    lastUpdated := now }

/-- updateLiveData from src/services/flightTracker.ts, on the non-throwing
path. `byIcao` and `byCallsign` are the outcomes of the two adapter
lookups (the adapter returns null both for "no airborne record" and for a
caught upstream failure); `none` also covers an identifier that is not
configured. The source takes `byIcao` if non-null, otherwise `byCallsign`;
with a record it goes live and recomputes progress from the remaining
great-circle distance, otherwise it falls through to
updateEstimatedPosition. Nothing on this path appends to the error log
(logError is called only from the catch branch). -/
def updateLiveData (byIcao byCallsign : Option ProcessedFlightData)
    (now : ℚ) (st : TrackingState) : TrackingState :=
  match byIcao.orElse (fun _ => byCallsign) with
  | some liveData =>
    let newPosition : Coordinates :=
      ⟨(liveData.latitude : ℝ), (liveData.longitude : ℝ)⟩
    let totalDistance := st.pathDistance
    let remainingDistance := calculateDistance newPosition st.toCoord
    { st with
      liveTelemetry := some liveData
      currentPosition := newPosition
      isLive := true
      lastUpdated := now
      progress :=
        max 0 (min 100 ((totalDistance - remainingDistance) / totalDistance * 100)) }
  | none => updateEstimatedPosition now st

end

section TheoremsDiscrete

-- Helper: one logError call always leaves at most 100 entries.
lemma logError_length_le (log : List FlightError) (e : FlightError) :
    (logError log e).length ≤ 100 := by
  simp only [logError]
  by_cases hc : 100 < (log ++ [e]).length
  · rw [if_pos hc, List.length_drop]
    omega
  · rw [if_neg hc]
    omega

-- Helper: the bound is preserved along any sequence of appends.
lemma foldl_logError_le (es : List FlightError) :
    ∀ log : List FlightError, log.length ≤ 100 →
      (es.foldl logError log).length ≤ 100 := by
  induction es with
  | nil => intro log h; simpa using h
  | cons e es ih => intro log _; exact ih _ (logError_length_le log e)

-- Helper: appending to a full log of 100 drops exactly the oldest entry.
lemma logError_full (log : List FlightError) (e : FlightError)
    (h : log.length = 100) : logError log e = log.tail ++ [e] := by
  simp only [logError]
  have hlen : (log ++ [e]).length = 101 := by simp [h]
  rw [if_pos (show 100 < (log ++ [e]).length by omega), hlen]
  show (log ++ [e]).drop 1 = log.tail ++ [e]
  cases log with
  | nil => simp at h
  | cons a t => simp

/-- C8: the error log never holds more than 100 entries — starting from the
empty log, after every sequence of logError appends the length is at most
100, and appending to a full log of exactly 100 evicts the oldest entry and
keeps the 100 most recent in order. -/
theorem error_log_bounded :
    (∀ es : List FlightError, (es.foldl logError []).length ≤ 100) ∧
    (∀ (log : List FlightError) (e : FlightError), log.length = 100 →
      logError log e = log.tail ++ [e] ∧ (logError log e).length = 100) := by
  refine ⟨fun es => foldl_logError_le es [] (by simp), fun log e h => ?_⟩
  have hfull := logError_full log e h
  refine ⟨hfull, ?_⟩
  rw [hfull]
  simp [h]

/-- Witness for C8 at a concrete full log of 100 entries. -/
theorem error_log_bounded_witness :
    (List.replicate 100 (⟨.API_ERROR, "a", none, 0⟩ : FlightError)).length = 100 ∧
    logError (List.replicate 100 ⟨.API_ERROR, "a", none, 0⟩)
        ⟨.NETWORK_ERROR, "b", none, 1⟩ =
      (List.replicate 100 (⟨.API_ERROR, "a", none, 0⟩ : FlightError)).tail ++
        [⟨.NETWORK_ERROR, "b", none, 1⟩] :=
  ⟨by simp,
   (error_log_bounded.2 (List.replicate 100 ⟨.API_ERROR, "a", none, 0⟩)
     ⟨.NETWORK_ERROR, "b", none, 1⟩ (by simp)).1⟩

/-- C2 counterexample: with departure 0 and arrival 100, evaluating the
classifier exactly at the arrival instant returns "current", not
"completed" — the end boundary is exclusive in the code (`currentTime >
arrivalTime`), contradicting the claim's inclusive end boundary. -/
theorem classifier_arrival_boundary_counterexample :
    calculateFlightStatus 0 100 100 = LifecycleStatus.current ∧
    calculateFlightStatus 0 100 100 ≠ LifecycleStatus.completed := by
  decide

/-- C2 (amended): at the departure instant the classifier returns
"current" (start boundary inclusive), and at the arrival instant it also
returns "current" — it returns "completed" only strictly after the
arrival instant. -/
theorem classifier_boundaries (dep arr : ℚ) (h : dep < arr) :
    calculateFlightStatus dep arr dep = LifecycleStatus.current ∧
    calculateFlightStatus dep arr arr = LifecycleStatus.current ∧
    ∀ now : ℚ, arr < now →
      calculateFlightStatus dep arr now = LifecycleStatus.completed := by
  refine ⟨?_, ?_, fun now hnow => ?_⟩
  · simp [calculateFlightStatus, h.not_lt]
  · simp [calculateFlightStatus, h.not_lt]
  · simp [calculateFlightStatus, hnow, (h.trans hnow).not_lt]

/-- Witness for C2's amended theorem at the concrete schedule (0, 100). -/
theorem classifier_boundaries_witness :
    (0 : ℚ) < 100 ∧
    calculateFlightStatus 0 100 0 = LifecycleStatus.current ∧
    calculateFlightStatus 0 100 100 = LifecycleStatus.current ∧
    calculateFlightStatus 0 100 150 = LifecycleStatus.completed :=
  ⟨by decide, (classifier_boundaries 0 100 (by decide)).1,
   (classifier_boundaries 0 100 (by decide)).2.1,
   (classifier_boundaries 0 100 (by decide)).2.2 150 (by decide)⟩

/-- C3 counterexample: a descriptor with arrival (50) ≤ departure (100)
and trackingEnabled = true is not rejected at load — it appears in the
active tracking set and startTracking initializes it. -/
theorem invalid_schedule_tracked_counterexample :
    (⟨"bad", true, 100, 50⟩ : FlightConfig) ∈
      getActiveFlights [⟨"good", true, 0, 100⟩, ⟨"bad", true, 100, 50⟩] ∧
    "bad" ∈ startTracking [⟨"good", true, 0, 100⟩, ⟨"bad", true, 100, 50⟩] ∧
    (⟨"bad", true, 100, 50⟩ : FlightConfig).arrival ≤
      (⟨"bad", true, 100, 50⟩ : FlightConfig).departure := by
  refine ⟨?_, ?_, by decide⟩
  · simp [getActiveFlights]
  · simp [startTracking, getActiveFlights]

/-- C3 (amended): configuration load performs no schedule validation — the
active tracking set is exactly the descriptors with trackingEnabled =
true, regardless of whether arrival is after departure, and startTracking
initializes precisely those descriptors. -/
theorem active_flights_characterization (cfgs : List FlightConfig)
    (f : FlightConfig) :
    (f ∈ getActiveFlights cfgs ↔ f ∈ cfgs ∧ f.trackingEnabled = true) ∧
    startTracking cfgs = (getActiveFlights cfgs).map FlightConfig.id := by
  refine ⟨?_, rfl⟩
  simp [getActiveFlights, List.mem_filter]

/-- C4 counterexample: on a tick where both lookups produce no record, the
reconciler neither clears the stored liveTelemetry nor appends any
TrackingError — starting from a state holding a stale telemetry record and
an empty error log, the record is still there afterwards and the log is
still empty (the claim requires liveTelemetry cleared and exactly one
API_ERROR/FLIGHT_NOT_FOUND entry appended). -/
theorem both_lookups_fail_counterexample :
    (updateLiveData none none 50
        ⟨⟨0, 0⟩, ⟨0, 90⟩, 0, 100, 0,
          some ⟨"abc", "JAL55", 1, 2, 3, 4, 5, false, 6, "JP"⟩,
          ⟨0, 0⟩, 0, 0, true, 0, []⟩).liveTelemetry =
      some ⟨"abc", "JAL55", 1, 2, 3, 4, 5, false, 6, "JP"⟩ ∧
    (updateLiveData none none 50
        ⟨⟨0, 0⟩, ⟨0, 90⟩, 0, 100, 0,
          some ⟨"abc", "JAL55", 1, 2, 3, 4, 5, false, 6, "JP"⟩,
          ⟨0, 0⟩, 0, 0, true, 0, []⟩).liveTelemetry ≠ none ∧
    (updateLiveData none none 50
        ⟨⟨0, 0⟩, ⟨0, 90⟩, 0, 100, 0,
          some ⟨"abc", "JAL55", 1, 2, 3, 4, 5, false, 6, "JP"⟩,
          ⟨0, 0⟩, 0, 0, true, 0, []⟩).errorLog = [] ∧
    (updateLiveData none none 50
        ⟨⟨0, 0⟩, ⟨0, 90⟩, 0, 100, 0,
          some ⟨"abc", "JAL55", 1, 2, 3, 4, 5, false, 6, "JP"⟩,
          ⟨0, 0⟩, 0, 0, true, 0, []⟩).errorLog.length ≠ 1 :=
  ⟨rfl, Option.some_ne_none _, rfl, Nat.zero_ne_one⟩

/-- C4 (amended): on a tick where both telemetry lookups produce no
record, the reconciler sets isLive to false, adopts the Position
Estimator's position, progress and remaining time for the current time,
updates lastUpdatedAt — and leaves the stored liveTelemetry unchanged and
appends no TrackingError (logError runs only when a lookup throws, which
the adapter prevents by returning null on failure). -/
theorem both_lookups_fail_fallback (now : ℚ) (st : TrackingState) :
    (updateLiveData none none now st).isLive = false ∧
    (updateLiveData none none now st).currentPosition =
      (calculateEstimatedPosition st.fromCoord st.toCoord st.departure
        st.arrival now).position ∧
    (updateLiveData none none now st).progress =
      ((calculateEstimatedPosition st.fromCoord st.toCoord st.departure
        st.arrival now).progress : ℝ) ∧
    (updateLiveData none none now st).estimatedTimeRemaining =
      (calculateEstimatedPosition st.fromCoord st.toCoord st.departure
        st.arrival now).remaining ∧
    (updateLiveData none none now st).lastUpdated = now ∧
    (updateLiveData none none now st).liveTelemetry = st.liveTelemetry ∧
    (updateLiveData none none now st).errorLog = st.errorLog :=
  ⟨rfl, rfl, rfl, rfl, rfl, rfl, rfl⟩

/-- C5: when a telemetry record is obtained — in particular when the
airframe-id lookup fails and the callsign lookup succeeds — the reconciler
sets isLive to true, adopts the record's position, stores the record, and
recomputes progress as ((totalRouteDistance − remainingGreatCircleDistance)
/ totalRouteDistance) × 100 clamped to [0,100], where the remaining
distance is the great-circle distance from the record's position to the
destination (not the schedule-time fraction). -/
theorem telemetry_record_sets_live (byIcao byCallsign : Option ProcessedFlightData)
    (now : ℚ) (st : TrackingState) (r : ProcessedFlightData)
    (hr : byIcao.orElse (fun _ => byCallsign) = some r)
    (hpath : st.pathDistance = calculateDistance st.fromCoord st.toCoord) :
    (updateLiveData byIcao byCallsign now st).isLive = true ∧
    (updateLiveData byIcao byCallsign now st).currentPosition =
      ⟨(r.latitude : ℝ), (r.longitude : ℝ)⟩ ∧
    (updateLiveData byIcao byCallsign now st).liveTelemetry = some r ∧
    (updateLiveData byIcao byCallsign now st).progress =
      max 0 (min 100 ((calculateDistance st.fromCoord st.toCoord -
        calculateDistance ⟨(r.latitude : ℝ), (r.longitude : ℝ)⟩ st.toCoord) /
        calculateDistance st.fromCoord st.toCoord * 100)) := by
  unfold updateLiveData
  rw [hr, ← hpath]
  exact ⟨rfl, rfl, rfl, rfl⟩

/-- Witness for C5: the airframe-id lookup returns null, the callsign
lookup returns a concrete record; the reconciler goes live on it. -/
theorem telemetry_record_sets_live_witness :
    (Option.orElse none (fun _ =>
        some (⟨"abc", "JAL55", 1, 2, 3, 4, 5, false, 6, "JP"⟩ :
          ProcessedFlightData))) =
      some (⟨"abc", "JAL55", 1, 2, 3, 4, 5, false, 6, "JP"⟩ :
        ProcessedFlightData) ∧
    (updateLiveData none
        (some ⟨"abc", "JAL55", 1, 2, 3, 4, 5, false, 6, "JP"⟩) 50
        ⟨⟨0, 0⟩, ⟨0, 90⟩, 0, 100, calculateDistance ⟨0, 0⟩ ⟨0, 90⟩, none,
          ⟨0, 0⟩, 0, 0, false, 0, []⟩).isLive = true ∧
    (updateLiveData none
        (some ⟨"abc", "JAL55", 1, 2, 3, 4, 5, false, 6, "JP"⟩) 50
        ⟨⟨0, 0⟩, ⟨0, 90⟩, 0, 100, calculateDistance ⟨0, 0⟩ ⟨0, 90⟩, none,
          ⟨0, 0⟩, 0, 0, false, 0, []⟩).currentPosition =
      ⟨(((1 : ℚ)) : ℝ), (((2 : ℚ)) : ℝ)⟩ ∧
    (updateLiveData none
        (some ⟨"abc", "JAL55", 1, 2, 3, 4, 5, false, 6, "JP"⟩) 50
        ⟨⟨0, 0⟩, ⟨0, 90⟩, 0, 100, calculateDistance ⟨0, 0⟩ ⟨0, 90⟩, none,
          ⟨0, 0⟩, 0, 0, false, 0, []⟩).liveTelemetry =
      some ⟨"abc", "JAL55", 1, 2, 3, 4, 5, false, 6, "JP"⟩ := by
  refine ⟨rfl, ?_, ?_, ?_⟩
  · exact (telemetry_record_sets_live none _ 50 _ _ rfl rfl).1
  · exact (telemetry_record_sets_live none _ 50 _ _ rfl rfl).2.1
  · exact (telemetry_record_sets_live none _ 50 _ _ rfl rfl).2.2.1

/-- C9: for a fixed route and a schedule window with arrival strictly
after departure, the estimator's progress is monotonically non-decreasing
in the current time across the window. -/
theorem estimated_progress_monotone (o d : Coordinates) (dep arr t1 t2 : ℚ)
    (hs : dep < arr) (h1 : dep ≤ t1) (h12 : t1 ≤ t2) (h2 : t2 ≤ arr) :
    (calculateEstimatedPosition o d dep arr t1).progress ≤
      (calculateEstimatedPosition o d dep arr t2).progress := by
  have ha1 : ¬ arr < t1 := not_lt.mpr (h12.trans h2)
  have ha2 : ¬ arr < t2 := not_lt.mpr h2
  have hb1 : ¬ t1 < dep := not_lt.mpr h1
  have hb2 : ¬ t2 < dep := not_lt.mpr (h1.trans h12)
  simp only [calculateEstimatedPosition, if_neg ha1, if_neg ha2, if_neg hb1,
    if_neg hb2]
  have hden : (0 : ℚ) < arr - dep := by linarith
  have hdiv : (t1 - dep) / (arr - dep) ≤ (t2 - dep) / (arr - dep) :=
    (div_le_div_iff_of_pos_right hden).mpr (by linarith)
  exact mul_le_mul_of_nonneg_right
    (max_le_max le_rfl (min_le_min le_rfl hdiv)) (by norm_num)

/-- Witness for C9 at the route (0,0) → (0,90), schedule window (0, 100),
times 10 ≤ 20. -/
theorem estimated_progress_monotone_witness :
    (0 : ℚ) < 100 ∧ (0 : ℚ) ≤ 10 ∧ (10 : ℚ) ≤ 20 ∧ (20 : ℚ) ≤ 100 ∧
    (calculateEstimatedPosition ⟨0, 0⟩ ⟨0, 90⟩ 0 100 10).progress ≤
      (calculateEstimatedPosition ⟨0, 0⟩ ⟨0, 90⟩ 0 100 20).progress :=
  ⟨by decide, by decide, by decide, by decide,
   estimated_progress_monotone ⟨0, 0⟩ ⟨0, 90⟩ 0 100 10 20
     (by decide) (by decide) (by decide) (by decide)⟩

-- Helper: with a zero default, the JS number fallback is Option.getD.
lemma jsOrNum_zero (x : Option ℚ) : jsOrNum x 0 = x.getD 0 := by
  cases x with
  | none => rfl
  | some v =>
    by_cases hv : v = 0 <;> simp [jsOrNum, hv]

/-- C10: a raw state vector that passes the validity filter is normalized
with zero-defaults for the nullable numeric fields — a null barometric
altitude falls back to the geometric altitude and then to 0, a null
velocity and a null heading become 0 — while latitude, longitude and the
(trimmed) callsign are taken from the source fields and never defaulted. -/
theorem process_flight_state_defaults (s : OpenSkyFlightState)
    (h : isValidFlightState s = true) :
    (s.baro_altitude = none →
      (processFlightState s).altitude = s.geo_altitude.getD 0) ∧
    (s.baro_altitude = none → s.geo_altitude = none →
      (processFlightState s).altitude = 0) ∧
    (s.velocity = none → (processFlightState s).velocity = 0) ∧
    (s.true_track = none → (processFlightState s).heading = 0) ∧
    (∀ v : ℚ, s.latitude = some v → (processFlightState s).latitude = v) ∧
    (∀ v : ℚ, s.longitude = some v → (processFlightState s).longitude = v) ∧
    (∀ c : String, s.callsign = some c →
      (processFlightState s).callsign = jsTrim c) ∧
    (processFlightState s).callsign ≠ "" := by
  have hcs : s.callsign.isSome = true := by
    simp only [isValidFlightState, Bool.and_eq_true] at h
    tauto
  have htrim : (jsTrim (s.callsign.getD "") != "") = true := by
    simp only [isValidFlightState, Bool.and_eq_true] at h
    tauto
  obtain ⟨c0, hc0⟩ := Option.isSome_iff_exists.mp hcs
  rw [hc0, Option.getD_some, bne_iff_ne] at htrim
  refine ⟨fun hb => ?_, fun hb hg => ?_, fun hv => ?_, fun ht => ?_,
    fun v hv => ?_, fun v hv => ?_, fun c hc => ?_, ?_⟩
  · have hp : (processFlightState s).altitude =
        jsOrNum s.baro_altitude (jsOrNum s.geo_altitude 0) := rfl
    rw [hp, hb]
    exact jsOrNum_zero _
  · have hp : (processFlightState s).altitude =
        jsOrNum s.baro_altitude (jsOrNum s.geo_altitude 0) := rfl
    rw [hp, hb, hg]
    rfl
  · have hp : (processFlightState s).velocity = jsOrNum s.velocity 0 := rfl
    rw [hp, hv]
    rfl
  · have hp : (processFlightState s).heading = jsOrNum s.true_track 0 := rfl
    rw [hp, ht]
    rfl
  · have hp : (processFlightState s).latitude = s.latitude.getD 0 := rfl
    rw [hp, hv]
    rfl
  · have hp : (processFlightState s).longitude = s.longitude.getD 0 := rfl
    rw [hp, hv]
    rfl
  · have hp : (processFlightState s).callsign =
        jsTrim (jsOrStr s.callsign "") := rfl
    rw [hp, hc]
    by_cases hce : c = "" <;> simp [jsOrStr, hce]
  · have hp : (processFlightState s).callsign =
        jsTrim (jsOrStr s.callsign "") := rfl
    rw [hp, hc0]
    by_cases hce : c0 = ""
    · rw [show jsOrStr (some c0) "" = "" from by simp [jsOrStr, hce]]
      exact hce ▸ htrim
    · rw [show jsOrStr (some c0) "" = c0 from by simp [jsOrStr, hce]]
      exact htrim

/-- Witness for C10 at a concrete valid state vector (airborne, position
and callsign present, all nullable numeric fields null). -/
theorem process_flight_state_defaults_witness :
    isValidFlightState
        ⟨"abc123", some "JAL55", "Japan", none, 7, some 2, some 1, none,
          false, none, none, none, none⟩ = true ∧
    (processFlightState
        ⟨"abc123", some "JAL55", "Japan", none, 7, some 2, some 1, none,
          false, none, none, none, none⟩).altitude = 0 ∧
    (processFlightState
        ⟨"abc123", some "JAL55", "Japan", none, 7, some 2, some 1, none,
          false, none, none, none, none⟩).velocity = 0 ∧
    (processFlightState
        ⟨"abc123", some "JAL55", "Japan", none, 7, some 2, some 1, none,
          false, none, none, none, none⟩).heading = 0 ∧
    (processFlightState
        ⟨"abc123", some "JAL55", "Japan", none, 7, some 2, some 1, none,
          false, none, none, none, none⟩).latitude = 1 ∧
    (processFlightState
        ⟨"abc123", some "JAL55", "Japan", none, 7, some 2, some 1, none,
          false, none, none, none, none⟩).callsign = jsTrim "JAL55" := by
  have hv : isValidFlightState
      ⟨"abc123", some "JAL55", "Japan", none, 7, some 2, some 1, none,
        false, none, none, none, none⟩ = true := by decide
  have hall := process_flight_state_defaults _ hv
  exact ⟨hv, hall.2.1 rfl rfl, hall.2.2.1 rfl, hall.2.2.2.1 rfl,
    hall.2.2.2.2.1 1 rfl, hall.2.2.2.2.2.2.1 "JAL55" rfl⟩

end TheoremsDiscrete

section TheoremsGeodesy

-- Helper: degree/radian conversion round-trips exactly over the reals.
lemma toDeg_toRad (x : ℝ) : toDegrees (toRadians x) = x := by
  unfold toDegrees toRadians
  field_simp

-- Helper: atan2 recovers an angle in (-pi, pi] from its sine and cosine.
lemma atan2_sin_cos {θ : ℝ} (h1 : -Real.pi < θ) (h2 : θ ≤ Real.pi) :
    atan2 (Real.sin θ) (Real.cos θ) = θ := by
  unfold atan2
  rw [show (⟨Real.cos θ, Real.sin θ⟩ : ℂ) =
      (Real.cos θ : ℂ) + (Real.sin θ : ℂ) * Complex.I from
    Complex.mk_eq_add_mul_I _ _]
  rw [Complex.ofReal_cos, Complex.ofReal_sin]
  exact Complex.arg_cos_add_sin_mul_I ⟨h1, h2⟩

-- Helper: atan2 is invariant under scaling both arguments by a positive
-- factor.
lemma atan2_smul {x y r : ℝ} (hr : 0 < r) :
    atan2 (r * y) (r * x) = atan2 y x := by
  unfold atan2
  rw [show (⟨r * x, r * y⟩ : ℂ) = (r : ℂ) * ⟨x, y⟩ from by
    apply Complex.ext <;> simp]
  exact Complex.arg_real_mul _ hr

-- Helper: concrete atan2 values used by the evaluations below.
lemma atan2_zero_one : atan2 0 1 = 0 := by
  unfold atan2
  rw [show (⟨1, 0⟩ : ℂ) = 1 from by apply Complex.ext <;> simp]
  exact Complex.arg_one

lemma atan2_zero_zero : atan2 0 0 = 0 := by
  unfold atan2
  rw [show (⟨0, 0⟩ : ℂ) = 0 from by apply Complex.ext <;> simp]
  exact Complex.arg_zero

lemma atan2_zero_neg_one : atan2 0 (-1) = Real.pi := by
  unfold atan2
  rw [show (⟨-1, 0⟩ : ℂ) = -1 from by apply Complex.ext <;> simp]
  exact Complex.arg_neg_one

-- Helper: a latitude strictly inside (-90, 90) degrees converts to a
-- radian angle strictly inside (-pi/2, pi/2).
lemma lat_rad_mem {l : ℝ} (h1 : -90 < l) (h2 : l < 90) :
    -(Real.pi / 2) < toRadians l ∧ toRadians l < Real.pi / 2 := by
  unfold toRadians
  constructor
  · have := mul_lt_mul_of_pos_right h1 (show (0:ℝ) < Real.pi / 180 by positivity)
    calc -(Real.pi / 2) = -90 * (Real.pi / 180) := by ring
    _ < l * (Real.pi / 180) := this
  · calc l * (Real.pi / 180) < 90 * (Real.pi / 180) :=
      mul_lt_mul_of_pos_right h2 (by positivity)
    _ = Real.pi / 2 := by ring

-- Helper: a longitude in (-180, 180] degrees converts to a radian angle
-- in (-pi, pi].
lemma lon_rad_mem {l : ℝ} (h1 : -180 < l) (h2 : l ≤ 180) :
    -Real.pi < toRadians l ∧ toRadians l ≤ Real.pi := by
  unfold toRadians
  constructor
  · calc -Real.pi = -180 * (Real.pi / 180) := by ring
    _ < l * (Real.pi / 180) := mul_lt_mul_of_pos_right h1 (by positivity)
  · calc l * (Real.pi / 180) ≤ 180 * (Real.pi / 180) :=
      mul_le_mul_of_nonneg_right h2 (by positivity)
    _ = Real.pi := by ring

-- Helper: converting a coordinate to the unit vector
-- (cos lat cos lon, cos lat sin lon, sin lat) and back through the
-- atan2-based reconstruction recovers latitude and longitude exactly,
-- provided the latitude is strictly inside (-90, 90) and the longitude is
-- in (-180, 180].
lemma unit_vector_recovery {lat lon : ℝ}
    (hlat1 : -90 < lat) (hlat2 : lat < 90)
    (hlon1 : -180 < lon) (hlon2 : lon ≤ 180) :
    toDegrees (atan2 (Real.sin (toRadians lat))
      (Real.sqrt (Real.cos (toRadians lat) * Real.cos (toRadians lon) *
          (Real.cos (toRadians lat) * Real.cos (toRadians lon)) +
        Real.cos (toRadians lat) * Real.sin (toRadians lon) *
          (Real.cos (toRadians lat) * Real.sin (toRadians lon))))) = lat ∧
    toDegrees (atan2 (Real.cos (toRadians lat) * Real.sin (toRadians lon))
      (Real.cos (toRadians lat) * Real.cos (toRadians lon))) = lon := by
  obtain ⟨ha1, ha2⟩ := lat_rad_mem hlat1 hlat2
  obtain ⟨hb1, hb2⟩ := lon_rad_mem hlon1 hlon2
  have hcos : 0 < Real.cos (toRadians lat) :=
    Real.cos_pos_of_mem_Ioo ⟨ha1, ha2⟩
  have hpi : 0 < Real.pi := Real.pi_pos
  constructor
  · have hsq : Real.cos (toRadians lat) * Real.cos (toRadians lon) *
          (Real.cos (toRadians lat) * Real.cos (toRadians lon)) +
        Real.cos (toRadians lat) * Real.sin (toRadians lon) *
          (Real.cos (toRadians lat) * Real.sin (toRadians lon)) =
        Real.cos (toRadians lat) ^ 2 := by
      have := Real.sin_sq_add_cos_sq (toRadians lon)
      nlinarith [this]
    rw [hsq, Real.sqrt_sq hcos.le,
      atan2_sin_cos (by linarith) (by linarith), toDeg_toRad]
  · rw [atan2_smul hcos, atan2_sin_cos hb1 hb2, toDeg_toRad]

-- Helper: interpolation at fraction 0 returns the start coordinate
-- exactly, for a start coordinate strictly inside the chart and a nonzero
-- interpolation denominator sin(angular distance).
lemma interp_zero (a b : Coordinates)
    (h1 : -90 < a.latitude) (h2 : a.latitude < 90)
    (h3 : -180 < a.longitude) (h4 : a.longitude ≤ 180)
    (hd : Real.sin (calculateDistance a b / EARTH_RADIUS_KM) ≠ 0) :
    calculateIntermediatePoint a b 0 = a := by
  obtain ⟨alat, alon⟩ := a
  simp only [calculateIntermediatePoint, sub_zero, one_mul, zero_mul,
    Real.sin_zero, zero_div, div_self hd, add_zero, mul_zero]
  obtain ⟨hlat, hlon⟩ := unit_vector_recovery h1 h2 h3 h4
  rw [Coordinates.mk.injEq]
  exact ⟨hlat, hlon⟩

-- Helper: interpolation at fraction 1 returns the end coordinate exactly,
-- under the symmetric conditions.
lemma interp_one (a b : Coordinates)
    (h1 : -90 < b.latitude) (h2 : b.latitude < 90)
    (h3 : -180 < b.longitude) (h4 : b.longitude ≤ 180)
    (hd : Real.sin (calculateDistance a b / EARTH_RADIUS_KM) ≠ 0) :
    calculateIntermediatePoint a b 1 = b := by
  obtain ⟨blat, blon⟩ := b
  simp only [calculateIntermediatePoint, sub_self, zero_mul, one_mul,
    Real.sin_zero, zero_div, div_self hd, zero_add]
  obtain ⟨hlat, hlon⟩ := unit_vector_recovery h1 h2 h3 h4
  rw [Coordinates.mk.injEq]
  exact ⟨hlat, hlon⟩

-- Helper: concrete square root and atan2 values for the haversine
-- parameter 1/2.
lemma sqrt_half : Real.sqrt (1 / 2) = Real.sqrt 2 / 2 := by
  rw [show (1 / 2 : ℝ) = (Real.sqrt 2 / 2) ^ 2 by
    rw [div_pow, Real.sq_sqrt (by norm_num : (0:ℝ) ≤ 2)]; norm_num]
  exact Real.sqrt_sq (by positivity)

lemma atan2_half_pair : atan2 (Real.sqrt (1 / 2)) (Real.sqrt (1 - 1 / 2)) =
    Real.pi / 4 := by
  have h : (1 : ℝ) - 1 / 2 = 1 / 2 := by norm_num
  rw [h, sqrt_half, show Real.sqrt 2 / 2 = Real.sin (Real.pi / 4) from
    (Real.sin_pi_div_four).symm]
  nth_rewrite 2 [show Real.sin (Real.pi / 4) = Real.cos (Real.pi / 4) from by
    rw [Real.sin_pi_div_four, Real.cos_pi_div_four]]
  exact atan2_sin_cos (by linarith [Real.pi_pos]) (by linarith [Real.pi_pos])

-- Helper: concrete degree/radian conversions.
lemma toRadians_zero : toRadians 0 = 0 := by unfold toRadians; ring
lemma toRadians_neg180 : toRadians (-180) = -Real.pi := by
  unfold toRadians; ring
lemma toRadians_90 : toRadians 90 = Real.pi / 2 := by unfold toRadians; ring
lemma toDegrees_zero : toDegrees 0 = 0 := by unfold toDegrees; ring
lemma toDegrees_pi : toDegrees Real.pi = 180 := by
  unfold toDegrees; field_simp

-- Helper: the route (0,0) -> (0,90) has angular distance pi/2.
lemma dist_eq_route : calculateDistance ⟨0, 0⟩ ⟨0, 90⟩ / EARTH_RADIUS_KM =
    Real.pi / 2 := by
  simp only [calculateDistance]
  have h0 : toRadians (0 - 0) = 0 := by unfold toRadians; ring
  have h00 : toRadians 0 = 0 := by unfold toRadians; ring
  have h90 : toRadians (90 - 0) / 2 = Real.pi / 4 := by unfold toRadians; ring
  rw [h0, h00, h90]
  rw [show (0:ℝ)/2 = 0 by ring, Real.sin_zero, Real.cos_zero]
  have hs : Real.sin (Real.pi / 4) * Real.sin (Real.pi / 4) = 1 / 2 := by
    rw [Real.sin_pi_div_four]
    rw [div_mul_div_comm, Real.mul_self_sqrt (by norm_num : (0:ℝ) ≤ 2)]
    norm_num
  rw [show (0:ℝ) * 0 + 1 * 1 * Real.sin (Real.pi / 4) * Real.sin (Real.pi / 4) =
    Real.sin (Real.pi / 4) * Real.sin (Real.pi / 4) by ring, hs]
  rw [atan2_half_pair]
  unfold EARTH_RADIUS_KM
  field_simp
  ring

-- Helper: the antimeridian pair (0,-180) -> (0,90) has angular distance
-- pi/2 (distinct, non-antipodal).
lemma dist_antimeridian :
    calculateDistance ⟨0, -180⟩ ⟨0, 90⟩ / EARTH_RADIUS_KM = Real.pi / 2 := by
  simp only [calculateDistance]
  have h0 : toRadians ((0:ℝ) - 0) = 0 := by unfold toRadians; ring
  have h270 : toRadians (90 - (-180)) / 2 = Real.pi - Real.pi / 4 := by
    unfold toRadians; ring
  rw [h0, toRadians_zero, h270, show (0:ℝ)/2 = 0 by ring, Real.sin_zero,
    Real.cos_zero, Real.sin_pi_sub]
  have hs : Real.sin (Real.pi / 4) * Real.sin (Real.pi / 4) = 1 / 2 := by
    rw [Real.sin_pi_div_four, div_mul_div_comm,
      Real.mul_self_sqrt (by norm_num : (0:ℝ) ≤ 2)]
    norm_num
  rw [show (0:ℝ) * 0 + 1 * 1 * Real.sin (Real.pi / 4) * Real.sin (Real.pi / 4) =
    Real.sin (Real.pi / 4) * Real.sin (Real.pi / 4) by ring, hs, atan2_half_pair]
  unfold EARTH_RADIUS_KM
  field_simp
  ring

-- Helper: identical endpoints have angular distance 0, so the
-- interpolation denominator sin(angular distance) is 0.
lemma dist_same : calculateDistance ⟨10, 20⟩ ⟨10, 20⟩ / EARTH_RADIUS_KM = 0 := by
  simp only [calculateDistance]
  rw [show (10:ℝ) - 10 = 0 by ring, show (20:ℝ) - 20 = 0 by ring,
    toRadians_zero, show (0:ℝ)/2 = 0 by ring, Real.sin_zero]
  rw [show (0:ℝ)*0 + Real.cos (toRadians 10) * Real.cos (toRadians 10) * 0 * 0 =
    0 by ring]
  rw [Real.sqrt_zero, show (1:ℝ) - 0 = 1 by ring, Real.sqrt_one, atan2_zero_one]
  unfold EARTH_RADIUS_KM
  norm_num

-- Helper: the pole route (90,50) -> (0,0) has angular distance pi/2.
lemma dist_pole : calculateDistance ⟨90, 50⟩ ⟨0, 0⟩ / EARTH_RADIUS_KM =
    Real.pi / 2 := by
  simp only [calculateDistance]
  have h1 : toRadians ((0:ℝ) - 90) / 2 = -(Real.pi/4) := by
    unfold toRadians; ring
  rw [h1, toRadians_90, Real.cos_pi_div_two]
  rw [show Real.sin (-(Real.pi/4)) * Real.sin (-(Real.pi/4)) +
      0 * Real.cos (toRadians 0) * Real.sin (toRadians ((0:ℝ) - 50) / 2) *
        Real.sin (toRadians ((0:ℝ) - 50) / 2) =
      Real.sin (Real.pi/4) * Real.sin (Real.pi/4) by
    rw [Real.sin_neg]; ring]
  have hs : Real.sin (Real.pi / 4) * Real.sin (Real.pi / 4) = 1 / 2 := by
    rw [Real.sin_pi_div_four, div_mul_div_comm,
      Real.mul_self_sqrt (by norm_num : (0:ℝ) ≤ 2)]
    norm_num
  rw [hs, atan2_half_pair]
  unfold EARTH_RADIUS_KM
  field_simp
  ring

/-- C6: the source has no special case for identical (or near-identical)
endpoints — for the identical pair (10,20), the interpolation denominator
sin(angular distance) is exactly 0, the coefficient computation divides by
it (0/0, NaN in JavaScript; the junk value 0 in this total-division real
embedding), and the function does not return the start coordinate: the
real-embedded result is (0,0), not (10,20). -/
theorem interpolate_identical_division_by_zero :
    Real.sin (calculateDistance ⟨10, 20⟩ ⟨10, 20⟩ / EARTH_RADIUS_KM) = 0 ∧
    calculateIntermediatePoint ⟨10, 20⟩ ⟨10, 20⟩ 0 ≠ (⟨10, 20⟩ : Coordinates) := by
  constructor
  · rw [dist_same, Real.sin_zero]
  · have hlat : (calculateIntermediatePoint ⟨10, 20⟩ ⟨10, 20⟩ 0).latitude = 0 := by
      simp only [calculateIntermediatePoint, dist_same]
      rw [show (1 - (0:ℝ)) * 0 = 0 by ring, show (0:ℝ) * 0 = 0 by ring,
        Real.sin_zero, zero_div]
      rw [show (0:ℝ) * Real.cos (toRadians 10) * Real.cos (toRadians 20) +
        0 * Real.cos (toRadians 10) * Real.cos (toRadians 20) = 0 by ring]
      rw [show (0:ℝ) * Real.cos (toRadians 10) * Real.sin (toRadians 20) +
        0 * Real.cos (toRadians 10) * Real.sin (toRadians 20) = 0 by ring]
      rw [show (0:ℝ) * Real.sin (toRadians 10) + 0 * Real.sin (toRadians 10) =
        0 by ring]
      rw [show (0:ℝ) * 0 + 0 * 0 = 0 by ring, Real.sqrt_zero, atan2_zero_zero,
        toDegrees_zero]
    intro hc
    have := congrArg Coordinates.latitude hc
    rw [hlat] at this
    norm_num at this

/-- C7 counterexample: the pair (0,-180) and (0,90) is distinct and
non-antipodal (angular distance pi/2), yet interpolation at fraction 0
returns longitude +180, not the start's longitude -180 — atan2 normalizes
the antimeridian to +180, so the claimed exact equality
interpolate(a,b,0) = a fails. -/
theorem interpolate_antimeridian_counterexample :
    calculateDistance ⟨0, -180⟩ ⟨0, 90⟩ / EARTH_RADIUS_KM = Real.pi / 2 ∧
    (calculateIntermediatePoint ⟨0, -180⟩ ⟨0, 90⟩ 0).longitude = 180 ∧
    (⟨0, -180⟩ : Coordinates).longitude = -180 ∧
    calculateIntermediatePoint ⟨0, -180⟩ ⟨0, 90⟩ 0 ≠ (⟨0, -180⟩ : Coordinates) := by
  have hl : (calculateIntermediatePoint ⟨0, -180⟩ ⟨0, 90⟩ 0).longitude = 180 := by
    simp only [calculateIntermediatePoint, dist_antimeridian]
    rw [show (1 - (0:ℝ)) * (Real.pi / 2) = Real.pi / 2 by ring,
      show (0:ℝ) * (Real.pi / 2) = 0 by ring,
      Real.sin_pi_div_two, Real.sin_zero, toRadians_zero, toRadians_neg180,
      toRadians_90, Real.cos_zero, Real.sin_neg, Real.sin_pi, Real.cos_neg,
      Real.cos_pi]
    rw [show (1:ℝ)/1 * 1 * -0 + 0/1 * 1 * Real.sin (Real.pi/2) = 0 by ring]
    rw [show (1:ℝ)/1 * 1 * -1 + 0/1 * 1 * Real.cos (Real.pi/2) = -1 by ring]
    rw [atan2_zero_neg_one, toDegrees_pi]
  refine ⟨dist_antimeridian, hl, rfl, fun hc => ?_⟩
  have := congrArg Coordinates.longitude hc
  rw [hl] at this
  norm_num at this

/-- C7 (amended): for every pair of coordinates with latitudes strictly
between -90 and 90 and longitudes in (-180, 180], whose interpolation
denominator sin(angular distance) is nonzero (equivalently: distinct and
non-antipodal), interpolation at fraction 0 returns the start exactly and
at fraction 1 returns the end exactly. -/
theorem interpolate_endpoint_exactness (a b : Coordinates)
    (ha1 : -90 < a.latitude) (ha2 : a.latitude < 90)
    (ha3 : -180 < a.longitude) (ha4 : a.longitude ≤ 180)
    (hb1 : -90 < b.latitude) (hb2 : b.latitude < 90)
    (hb3 : -180 < b.longitude) (hb4 : b.longitude ≤ 180)
    (hd : Real.sin (calculateDistance a b / EARTH_RADIUS_KM) ≠ 0) :
    calculateIntermediatePoint a b 0 = a ∧
    calculateIntermediatePoint a b 1 = b :=
  ⟨interp_zero a b ha1 ha2 ha3 ha4 hd, interp_one a b hb1 hb2 hb3 hb4 hd⟩

/-- Witness for C7's amended theorem at the pair (0,0), (0,90). -/
theorem interpolate_endpoint_exactness_witness :
    calculateIntermediatePoint ⟨0, 0⟩ ⟨0, 90⟩ 0 = (⟨0, 0⟩ : Coordinates) ∧
    calculateIntermediatePoint ⟨0, 0⟩ ⟨0, 90⟩ 1 = (⟨0, 90⟩ : Coordinates) := by
  have hsin : Real.sin (calculateDistance ⟨0, 0⟩ ⟨0, 90⟩ / EARTH_RADIUS_KM) ≠ 0 := by
    rw [dist_eq_route, Real.sin_pi_div_two]
    exact one_ne_zero
  exact interpolate_endpoint_exactness ⟨0, 0⟩ ⟨0, 90⟩
    (by norm_num) (by norm_num) (by norm_num) (by norm_num)
    (by norm_num) (by norm_num) (by norm_num) (by norm_num) hsin

/-- C1 counterexample: for the route from the pole coordinate (90,50) to
(0,0) with schedule (0,100), at now = departure the estimator returns
progress 0 but a position whose longitude is 0, not the origin's
longitude 50 — the claimed "position equal to the route origin" fails on
this route even though now ≤ departureInstant. -/
theorem estimator_origin_pole_counterexample :
    (calculateEstimatedPosition ⟨90, 50⟩ ⟨0, 0⟩ 0 100 0).progress = 0 ∧
    (calculateEstimatedPosition ⟨90, 50⟩ ⟨0, 0⟩ 0 100 0).position.longitude = 0 ∧
    (calculateEstimatedPosition ⟨90, 50⟩ ⟨0, 0⟩ 0 100 0).position ≠
      (⟨90, 50⟩ : Coordinates) := by
  have hfrac : (if (100:ℚ) < 0 then (1:ℚ) else if (0:ℚ) < 0 then 0
      else max 0 (min 1 (((0:ℚ) - 0) / (100 - 0)))) = 0 := by norm_num
  have hlon :
      (calculateEstimatedPosition ⟨90, 50⟩ ⟨0, 0⟩ 0 100 0).position.longitude = 0 := by
    simp only [calculateEstimatedPosition, hfrac, Rat.cast_zero]
    simp only [calculateIntermediatePoint, dist_pole]
    rw [show (1 - (0:ℝ)) * (Real.pi/2) = Real.pi/2 by ring,
      show (0:ℝ) * (Real.pi/2) = 0 by ring,
      Real.sin_pi_div_two, Real.sin_zero, toRadians_90, toRadians_zero,
      Real.cos_pi_div_two, Real.cos_zero]
    rw [show (1:ℝ)/1 * 0 * Real.sin (toRadians 50) + 0/1 * 1 * Real.sin 0 =
      0 by rw [Real.sin_zero]; ring]
    rw [show (1:ℝ)/1 * 0 * Real.cos (toRadians 50) + 0/1 * 1 * 1 = 0 by ring]
    rw [atan2_zero_zero, toDegrees_zero]
  refine ⟨?_, hlon, fun hc => ?_⟩
  · simp only [calculateEstimatedPosition, hfrac]
    norm_num
  · have := congrArg Coordinates.longitude hc
    rw [hlon] at this
    norm_num at this

/-- C1 (amended): for every route whose endpoints have latitudes strictly
between -90 and 90 and longitudes in (-180, 180] and a nonzero
interpolation denominator (distinct, non-antipodal endpoints), and every
schedule window with arrival strictly after departure: when now ≤
departure the estimator returns progress 0 and the route origin; when now
≥ arrival it returns progress 100 and the route destination; otherwise it
returns progress = clamp((now − departure)/(arrival − departure), 0, 1) ×
100 and the interpolation of the endpoints at that clamped fraction. -/
theorem estimator_schedule_policy (o d : Coordinates) (dep arr now : ℚ)
    (hsched : dep < arr)
    (ho1 : -90 < o.latitude) (ho2 : o.latitude < 90)
    (ho3 : -180 < o.longitude) (ho4 : o.longitude ≤ 180)
    (hd1 : -90 < d.latitude) (hd2 : d.latitude < 90)
    (hd3 : -180 < d.longitude) (hd4 : d.longitude ≤ 180)
    (hsin : Real.sin (calculateDistance o d / EARTH_RADIUS_KM) ≠ 0) :
    (now ≤ dep →
      (calculateEstimatedPosition o d dep arr now).progress = 0 ∧
      (calculateEstimatedPosition o d dep arr now).position = o) ∧
    (arr ≤ now →
      (calculateEstimatedPosition o d dep arr now).progress = 100 ∧
      (calculateEstimatedPosition o d dep arr now).position = d) ∧
    (dep < now → now < arr →
      (calculateEstimatedPosition o d dep arr now).progress =
        max 0 (min 1 ((now - dep) / (arr - dep))) * 100 ∧
      (calculateEstimatedPosition o d dep arr now).position =
        calculateIntermediatePoint o d
          ((max 0 (min 1 ((now - dep) / (arr - dep))) : ℚ) : ℝ)) := by
  refine ⟨fun hle => ?_, fun hge => ?_, fun hgt hlt => ?_⟩
  · have hna : ¬ arr < now := not_lt.mpr (hle.trans hsched.le)
    have hbs : (if now < dep then (0:ℚ)
        else max 0 (min 1 ((now - dep) / (arr - dep)))) = 0 := by
      rcases eq_or_lt_of_le hle with heq | hlt2
      · rw [if_neg (by rw [heq]; exact lt_irrefl dep), heq, sub_self, zero_div]
        norm_num
      · rw [if_pos hlt2]
    simp only [calculateEstimatedPosition, if_neg hna, hbs]
    refine ⟨by norm_num, ?_⟩
    rw [Rat.cast_zero]
    exact interp_zero o d ho1 ho2 ho3 ho4 hsin
  · have hnb : ¬ now < dep := not_lt.mpr (hsched.le.trans hge)
    have hpr : (if arr < now then (1:ℚ) else if now < dep then 0
        else max 0 (min 1 ((now - dep) / (arr - dep)))) = 1 := by
      rcases eq_or_lt_of_le hge with heq | hlt2
      · rw [if_neg (by rw [heq]; exact lt_irrefl now), if_neg hnb, ← heq,
          div_self (sub_ne_zero.mpr (ne_of_gt hsched))]
        norm_num
      · rw [if_pos hlt2]
    simp only [calculateEstimatedPosition, hpr]
    refine ⟨by norm_num, ?_⟩
    rw [Rat.cast_one]
    exact interp_one o d hd1 hd2 hd3 hd4 hsin
  · refine ⟨?_, ?_⟩ <;>
      simp only [calculateEstimatedPosition, if_neg (not_lt.mpr hlt.le),
        if_neg (not_lt.mpr hgt.le)]

/-- Witness for C1's amended theorem: route (0,0) -> (0,90), schedule
(0, 100), evaluated at now = 0 (start boundary) and now = 100 (end
boundary). -/
theorem estimator_schedule_policy_witness :
    (0 : ℚ) < 100 ∧
    (calculateEstimatedPosition ⟨0, 0⟩ ⟨0, 90⟩ 0 100 0).progress = 0 ∧
    (calculateEstimatedPosition ⟨0, 0⟩ ⟨0, 90⟩ 0 100 0).position =
      (⟨0, 0⟩ : Coordinates) ∧
    (calculateEstimatedPosition ⟨0, 0⟩ ⟨0, 90⟩ 0 100 100).progress = 100 ∧
    (calculateEstimatedPosition ⟨0, 0⟩ ⟨0, 90⟩ 0 100 100).position =
      (⟨0, 90⟩ : Coordinates) := by
  have hsin : Real.sin (calculateDistance ⟨0, 0⟩ ⟨0, 90⟩ / EARTH_RADIUS_KM) ≠ 0 := by
    rw [dist_eq_route, Real.sin_pi_div_two]
    exact one_ne_zero
  have h0 := estimator_schedule_policy ⟨0, 0⟩ ⟨0, 90⟩ 0 100 0 (by norm_num)
    (by norm_num) (by norm_num) (by norm_num) (by norm_num)
    (by norm_num) (by norm_num) (by norm_num) (by norm_num) hsin
  have h1 := estimator_schedule_policy ⟨0, 0⟩ ⟨0, 90⟩ 0 100 100 (by norm_num)
    (by norm_num) (by norm_num) (by norm_num) (by norm_num)
    (by norm_num) (by norm_num) (by norm_num) (by norm_num) hsin
  exact ⟨by norm_num, (h0.1 le_rfl).1, (h0.1 le_rfl).2,
    (h1.2.1 le_rfl).1, (h1.2.1 le_rfl).2⟩

end TheoremsGeodesy
